import Mathlib

/-!
Verification of the backend command layer of the launcher
(src/src-tauri/src/lib.rs): the error taxonomy with its rendered
messages, the canonicalization of host I/O errors, and the two
exposed commands (greet, copy_to_clipboard) together with the log
lines they emit.
-/

/-- Host I/O error category (std::io::ErrorKind): the two categories the
conversion distinguishes by name, plus a numeric tag standing for every
other category, so the default match arm is genuinely reachable. -/
inductive IoErrorKind where
  | notFound
  | permissionDenied
  | otherKind (tag : Nat)
deriving DecidableEq

/-- A host I/O error (std::io::Error), reduced to what the conversion
inspects: its category (err.kind()) and its native description text
(err.to_string()). -/
structure IoError where
  kind : IoErrorKind
  msg : String
deriving DecidableEq

/-- The LauncherError enum of lib.rs. -/
inductive LauncherError where
  | FileReadFailed (path details : String)
  | FileWriteFailed (path details : String)
  | ClipboardFailed
deriving DecidableEq

namespace LauncherError

/-- The Display rendering generated by the thiserror attributes on each
variant of LauncherError. -/
def render : LauncherError → String
  | .FileReadFailed path details => "Failed to read file " ++ path ++ ": " ++ details
  | .FileWriteFailed path details => "Failed to write file " ++ path ++ ": " ++ details
  | .ClipboardFailed => "Clipboard operation failed"

/-- impl From for LauncherError: matches on err.kind(), always producing
FileReadFailed with path "unknown"; the PermissionDenied arm prepends
"Permission denied: " to the native text, the NotFound arm and the
default arm keep it as is. -/
def fromHostError (err : IoError) : LauncherError :=
  match err.kind with
  | .notFound => .FileReadFailed "unknown" err.msg
  | .permissionDenied => .FileReadFailed "unknown" ("Permission denied: " ++ err.msg)
  | .otherKind _ => .FileReadFailed "unknown" err.msg

end LauncherError

/-- A line written by the log_info macro: "[INFO] " followed by the
formatted message. -/
def log_info_line (msg : String) : String := "[INFO] " ++ msg

/-- A line written by the log_warn macro: "[WARN] " followed by the
formatted message. -/
def log_warn_line (msg : String) : String := "[WARN] " ++ msg

/-- The greet command: format "Hello, " ++ name ++ "! You have been
greeted from Rust!" substitutes the argument literally. -/
def greet (name : String) : String :=
  "Hello, " ++ name ++ "! You\x27ve been greeted from Rust!"

/-- The copy_to_clipboard command: logs the input length at INFO, logs
the unimplemented warning at WARN, and returns
Err(LauncherError::ClipboardFailed.to_string()). The second component
collects the log lines emitted, in order. -/
def copy_to_clipboard (text : String) : Except String Unit × List String :=
  (Except.error LauncherError.ClipboardFailed.render,
   [log_info_line ("Copy to clipboard requested for text of length: "
      ++ toString text.length),
    log_warn_line "Clipboard functionality not implemented - frontend should handle this"])

/-- Modelled from the spec (for the refinement claim): a two-way rule
that only distinguishes the permission denied category, treating the
not found category like every other one. -/
def fromHostErrorTwoWay (err : IoError) : LauncherError :=
  if err.kind = IoErrorKind.permissionDenied then
    LauncherError.FileReadFailed "unknown" ("Permission denied: " ++ err.msg)
  else
    LauncherError.FileReadFailed "unknown" err.msg

/-- C1: canonicalization equals the three-way reference rule: for every
host I/O error the result is FileReadFailed with path "unknown", and
details equal to the native text, except under the permission denied
category where "Permission denied: " is prepended to the native text. -/
theorem fromHostError_eq_three_way_rule (err : IoError) :
    LauncherError.fromHostError err =
      LauncherError.FileReadFailed "unknown"
        (if err.kind = IoErrorKind.permissionDenied
         then "Permission denied: " ++ err.msg
         else err.msg) := by
  rcases err with ⟨k, m⟩
  cases k <;> simp [LauncherError.fromHostError]

/-- C2: for every input string, copy_to_clipboard returns the failure
payload "Clipboard operation failed" and never returns success. -/
theorem copy_to_clipboard_always_fails (t : String) :
    (copy_to_clipboard t).1 = Except.error "Clipboard operation failed" ∧
    ∀ u : Unit, (copy_to_clipboard t).1 ≠ Except.ok u := by
  refine ⟨rfl, fun u h => ?_⟩
  simp [copy_to_clipboard] at h

/-- C3: greet returns exactly the fixed template with the argument
substituted literally, also for the empty string and for the string
consisting of the substitution delimiter itself. -/
theorem greet_returns_template (s : String) :
    greet s = "Hello, " ++ s ++ "! You\x27ve been greeted from Rust!" ∧
    greet "" = "Hello, ! You\x27ve been greeted from Rust!" ∧
    greet "\x7b\x7d" = "Hello, \x7b\x7d! You\x27ve been greeted from Rust!" :=
  ⟨rfl, by decide, by decide⟩

/-- C4: canonicalization is total: for every host error category
(including every non-enumerated category, via the default arm) it
returns some LauncherError value. -/
theorem fromHostError_total (err : IoError) :
    ∃ path details,
      LauncherError.fromHostError err = LauncherError.FileReadFailed path details := by
  rcases err with ⟨k, m⟩
  cases k with
  | notFound => exact ⟨"unknown", m, rfl⟩
  | permissionDenied => exact ⟨"unknown", "Permission denied: " ++ m, rfl⟩
  | otherKind tag => exact ⟨"unknown", m, rfl⟩

/-- C5: the details field produced by canonicalization contains the
native description text as a substring, for every category including
permission denied. -/
theorem fromHostError_preserves_native_text (err : IoError) :
    ∃ pre post,
      LauncherError.fromHostError err =
        LauncherError.FileReadFailed "unknown" (pre ++ err.msg ++ post) := by
  rcases err with ⟨k, m⟩
  cases k with
  | notFound => exact ⟨"", "", by simp [LauncherError.fromHostError]⟩
  | permissionDenied =>
      exact ⟨"Permission denied: ", "", by simp [LauncherError.fromHostError]⟩
  | otherKind tag => exact ⟨"", "", by simp [LauncherError.fromHostError]⟩

/-- C6: the rendering function maps each variant to its fixed-format
message, for all field strings including empty ones. -/
theorem render_fixed_formats (p d : String) :
    LauncherError.render (LauncherError.FileReadFailed p d) =
      "Failed to read file " ++ p ++ ": " ++ d ∧
    LauncherError.render (LauncherError.FileWriteFailed p d) =
      "Failed to write file " ++ p ++ ": " ++ d ∧
    LauncherError.render LauncherError.ClipboardFailed = "Clipboard operation failed" :=
  ⟨rfl, rfl, rfl⟩

/-- C7: rendering is deterministic: two LauncherError values with equal
variant and equal fields render to identical strings. -/
theorem render_deterministic (e₁ e₂ : LauncherError) (h : e₁ = e₂) :
    LauncherError.render e₁ = LauncherError.render e₂ := by
  rw [h]

/-- Witness for C7 at FileReadFailed with path "a" and details "b"
constructed twice. -/
theorem render_deterministic_witness :
    LauncherError.render (LauncherError.FileReadFailed "a" "b") =
    LauncherError.render (LauncherError.FileReadFailed "a" "b") :=
  render_deterministic (LauncherError.FileReadFailed "a" "b")
    (LauncherError.FileReadFailed "a" "b") rfl

/-- C8: one invocation of copy_to_clipboard appends exactly two log
lines and nothing else: an INFO line mentioning the input length, then
a WARN line stating the capability is unimplemented; for "hello" the
INFO line mentions length 5. -/
theorem copy_to_clipboard_two_log_lines (t : String) :
    (∃ infoRest warnRest,
      (copy_to_clipboard t).2 = ["[INFO] " ++ infoRest, "[WARN] " ++ warnRest] ∧
      (∃ pre post, infoRest = pre ++ (toString t.length ++ post)) ∧
      warnRest = "Clipboard functionality not implemented - frontend should handle this") ∧
    (copy_to_clipboard "hello").2 =
      ["[INFO] Copy to clipboard requested for text of length: 5",
       "[WARN] Clipboard functionality not implemented - frontend should handle this"] := by
  refine ⟨⟨"Copy to clipboard requested for text of length: " ++ toString t.length,
          "Clipboard functionality not implemented - frontend should handle this",
          rfl,
          ⟨"Copy to clipboard requested for text of length: ", "", by
            simp⟩,
          rfl⟩, by decide⟩

/-- C9: the not found arm is extensionally identical to the default
arm: two host errors with the same native text whose categories both
differ from permission denied canonicalize to equal values, so the
three-way rule coincides with the two-way rule that only distinguishes
permission denied. -/
theorem notFound_arm_eq_default_arm :
    (∀ k₁ k₂ : IoErrorKind, ∀ msg : String,
      k₁ ≠ IoErrorKind.permissionDenied → k₂ ≠ IoErrorKind.permissionDenied →
      LauncherError.fromHostError ⟨k₁, msg⟩ = LauncherError.fromHostError ⟨k₂, msg⟩) ∧
    (∀ err : IoError, LauncherError.fromHostError err = fromHostErrorTwoWay err) := by
  constructor
  · intro k₁ k₂ msg h₁ h₂
    cases k₁ <;> cases k₂ <;> simp_all [LauncherError.fromHostError]
  · intro err
    rcases err with ⟨k, m⟩
    cases k <;> simp [LauncherError.fromHostError, fromHostErrorTwoWay]

/-- Witness for C9: a not found error and an error of an arbitrary
other category with the same native text canonicalize identically. -/
theorem notFound_arm_eq_default_arm_witness :
    LauncherError.fromHostError ⟨IoErrorKind.notFound, "x"⟩ =
    LauncherError.fromHostError ⟨IoErrorKind.otherKind 0, "x"⟩ :=
  notFound_arm_eq_default_arm.1 IoErrorKind.notFound (IoErrorKind.otherKind 0) "x"
    (by decide) (by decide)

/-- C10: FileWriteFailed is unreachable from the public surface:
canonicalization never returns it, and the error copy_to_clipboard
returns is exactly the rendering of ClipboardFailed. -/
theorem fileWriteFailed_unreachable :
    (∀ err : IoError, ∀ p d : String,
      LauncherError.fromHostError err ≠ LauncherError.FileWriteFailed p d) ∧
    (∀ t : String,
      (copy_to_clipboard t).1 =
        Except.error (LauncherError.render LauncherError.ClipboardFailed)) := by
  constructor
  · intro err p d h
    rcases err with ⟨k, m⟩
    cases k <;> simp [LauncherError.fromHostError] at h
  · intro t
    rfl
